import Mathlib

/-!
Shallow embedding of the image discovery-and-acquisition pipeline
(`extract_instagram_urls.py`, `download_instagram_images.py`,
`instagram_scraper_automated.py`).  URL strings and file contents are
modelled as `List Char`; Python's substring test (`tok in url`) becomes
`hasTok`; the two regular expressions used by the code are embedded as
explicit leftmost-match scanners with the same greedy/backtracking
behaviour on their patterns.
-/

/-- The Python substring test: `tok in s`. -/
def hasTok (tok s : List Char) : Bool := decide (tok <:+: s)

/-- Characters removed by Python's `str.strip()` with no argument. -/
def isPySpace (c : Char) : Bool :=
  c = ' ' || c = '\t' || c = '\n' || c = '\r' || c = '\x0b' || c = '\x0c'

/-- The Python `str.strip()` call: drop leading and trailing whitespace. -/
def pythonStrip (s : List Char) : List Char :=
  ((s.dropWhile isPySpace).reverse.dropWhile isPySpace).reverse

/-- The Python test `url.startswith('http')`. -/
def startsWithHttp (s : List Char) : Bool := decide ("http".toList <+: s)

/-- Iterating a text file line by line in Python (each yielded line is
subsequently stripped, so the terminating newline is dropped here).  A file
ending in a newline yields no extra empty line; text after the last newline
forms a final line. -/
def linesOf : List Char → List (List Char)
  | [] => []
  | c :: cs =>
    if c = '\n' then [] :: linesOf cs
    else
      match linesOf cs with
      | [] => [[c]]
      | l :: ls => (c :: l) :: ls

/-! ## URL Classifier (`extract_instagram_urls.is_full_size_image`) -/

/-- The profile-picture path token rejected first (line 59). -/
def profileTok : List Char := "/t51.2885-19/".toList

/-- The small-thumbnail tokens rejected second (line 63). -/
def thumbToks : List (List Char) :=
  ["_s150x150".toList, "_s100x100".toList, "s150x150".toList, "s100x100".toList]

/-- The accepted post-image CDN path tokens (line 74). -/
def postToks : List (List Char) :=
  ["/t51.82787-15/".toList, "/t51.75761-15/".toList, "/t51.71878-15/".toList]

/-- The thumbnail tokens excluded by the default CDN-family rule (line 89). -/
def thumbToksDefault : List (List Char) :=
  ["_s150".toList, "_s100".toList, "s150x150".toList, "s100x100".toList]

/-- Membership in the target CDN family (line 87): `'instagram' in url or
'fbcdn.net' in url`. -/
def cdnFamily (url : List Char) : Bool :=
  hasTok "instagram".toList url || hasTok "fbcdn.net".toList url

/-- Parse exactly `n` leading decimal digits, returning them and the rest. -/
def exactDigits : Nat → List Char → Option (List Char × List Char)
  | 0, s => some ([], s)
  | _ + 1, [] => none
  | n + 1, c :: s =>
    if c.isDigit then (exactDigits n s).map (fun p => (c :: p.1, p.2)) else none

/-- Decimal value of a digit string. -/
def digitsVal (ds : List Char) : Nat :=
  ds.foldl (fun a c => 10 * a + (c.toNat - 48)) 0

/-- Match `\d{3,4}x\d{3,4}` greedily (4 digits tried before 3, as Python's
regex engine does) at the head of `s`, returning the value of the leading
dimension group. -/
def sizeAfterPS (s : List Char) : Option Nat :=
  let try4 :=
    match exactDigits 4 s with
    | some (ds, 'x' :: r2) => if (exactDigits 3 r2).isSome then some (digitsVal ds) else none
    | _ => none
  match try4 with
  | some v => some v
  | none =>
    match exactDigits 3 s with
    | some (ds, 'x' :: r2) => if (exactDigits 3 r2).isSome then some (digitsVal ds) else none
    | _ => none

/-- Match `[ps]\d{3,4}x\d{3,4}` at the head of `s`. -/
def sizeTokenAt (s : List Char) : Option Nat :=
  match s with
  | c :: rest => if c = 'p' || c = 's' then sizeAfterPS rest else none
  | [] => none

/-- Model of `re.search(r'[ps](\d{3,4})x\d{3,4}', url)`: leftmost match, returning
the numeric value of group 1 (lines 78-82). -/
def findSizeToken : List Char → Option Nat
  | [] => none
  | c :: rest =>
    match sizeTokenAt (c :: rest) with
    | some v => some v
    | none => findSizeToken rest

/-- Embedding of `extract_instagram_urls.is_full_size_image` (lines 48-92): ordered
rules, first match wins.  Reject the profile-picture path token; reject the
small-thumbnail size tokens; accept the post-image path tokens; accept an
embedded `[ps]<digits>x<digits>` token whose leading dimension is at least
640; otherwise accept exactly the CDN-family URLs carrying none of the
default-rule thumbnail tokens. -/
def is_full_size_image (url : List Char) : Bool :=
  if hasTok profileTok url then false
  else if thumbToks.any (fun t => hasTok t url) then false
  else if postToks.any (fun t => hasTok t url) then true
  else if (match findSizeToken url with
           | some size => decide (640 ≤ size)
           | none => false) then true
  else if cdnFamily url && !(thumbToksDefault.any (fun t => hasTok t url)) then true
  else false


/-! ## Inline admission predicates of the Discovery Engine
(`instagram_scraper_automated.py`) -/

/-- The token list of the inline admission checks (lines 83, 114, 122). -/
def inlineToks : List (List Char) :=
  ["_s150x150".toList, "_s100x100".toList, "/t51.2885-19/".toList]

/-- Admission applied to an `img` element's `src` attribute
(`extract_image_urls_from_dom`, lines 113-115). -/
def dom_accept_src (u : List Char) : Bool :=
  (hasTok "instagram".toList u || hasTok "fbcdn.net".toList u)
    && !(inlineToks.any (fun t => hasTok t u))

/-- Admission applied to each leading URL of a `srcset` entry
(`extract_image_urls_from_dom`, lines 121-123). -/
def dom_accept_srcset (u : List Char) : Bool :=
  (hasTok "instagram".toList u || hasTok "fbcdn.net".toList u)
    && !(inlineToks.any (fun t => hasTok t u))

/-- URL-level admission applied to a network-log entry whose MIME type
already passed the image check (`extract_image_urls_from_network_logs`,
lines 81-84). -/
def network_log_accept (u : List Char) : Bool :=
  (hasTok "instagram".toList u || hasTok "fbcdn.net".toList u)
    && !(inlineToks.any (fun t => hasTok t u))

/-! ## Filename derivation (`download_instagram_images.get_filename_from_url`) -/

/-- Skip to the first character after the scheme separator `://`, when one
is present. -/
def afterSchemeSep : List Char → Option (List Char)
  | [] => none
  | c :: r =>
    if c = ':' then
      match r with
      | '/' :: '/' :: rest => some rest
      | _ => afterSchemeSep r
    else afterSchemeSep r

/-- Drop the network-location part: everything up to the first `/`, `?` or
`#`. -/
def dropNetloc : List Char → List Char
  | [] => []
  | c :: r => if c = '/' || c = '?' || c = '#' then c :: r else dropNetloc r

/-- Keep characters up to the first `?` or `#`. -/
def takeUntilQuery : List Char → List Char
  | [] => []
  | c :: r => if c = '?' || c = '#' then [] else c :: takeUntilQuery r

/-- Model of `urlparse(url).path` for the URL shapes the downloader receives:
with a `://` separator the path starts at the first `/` after the host and
stops at the query or fragment; without one, the whole string up to the
query or fragment is the path. -/
def urlPath (u : List Char) : List Char :=
  match afterSchemeSep u with
  | some rest => takeUntilQuery (dropNetloc rest)
  | none => takeUntilQuery u

/-- Maximal run of leading decimal digits and the remainder. -/
def takeDigitRun : List Char → List Char × List Char
  | [] => ([], [])
  | c :: r =>
    if c.isDigit then
      match takeDigitRun r with
      | (d, rest) => (c :: d, rest)
    else ([], c :: r)

/-- The alternation `(jpg|jpeg|png|webp)`, tried in the pattern's order. -/
def extAt (s : List Char) : Option (List Char) :=
  if decide ("jpg".toList <+: s) then some "jpg".toList
  else if decide ("jpeg".toList <+: s) then some "jpeg".toList
  else if decide ("png".toList <+: s) then some "png".toList
  else if decide ("webp".toList <+: s) then some "webp".toList
  else none

/-- Match `/(\d+_\d+_\d+_n\.(jpg|jpeg|png|webp))` at the head of `s`,
returning group 1 (the match without the leading slash). -/
def idMatchAt (s : List Char) : Option (List Char) :=
  match s with
  | '/' :: r =>
    match takeDigitRun r with
    | ([], _) => none
    | (d1, r1) =>
      match r1 with
      | '_' :: r2 =>
        match takeDigitRun r2 with
        | ([], _) => none
        | (d2, r2b) =>
          match r2b with
          | '_' :: r3 =>
            match takeDigitRun r3 with
            | ([], _) => none
            | (d3, r3b) =>
              match r3b with
              | '_' :: 'n' :: '.' :: r4 =>
                match extAt r4 with
                | some ext =>
                  some (d1 ++ '_' :: d2 ++ '_' :: d3 ++ '_' :: 'n' :: '.' :: ext)
                | none => none
              | _ => none
          | _ => none
      | _ => none
  | _ => none

/-- Model of `re.search(r'/(\d+_\d+_\d+_n\.(jpg|jpeg|png|webp))', path)`: leftmost
match, group 1 (lines 68-69). -/
def findIdMatch : List Char → Option (List Char)
  | [] => none
  | c :: r =>
    match idMatchAt (c :: r) with
    | some g => some g
    | none => findIdMatch r

/-- Model of `os.path.basename(path)`: the part after the last slash. -/
def pyBasename (p : List Char) : List Char :=
  (p.reverse.takeWhile (fun c => c ≠ '/')).reverse

/-- Padding of `f"{index:04d}"`: decimal digits zero-padded on the left to width 4. -/
def pad4 (i : Nat) : List Char :=
  let ds := Nat.toDigits 10 i
  List.replicate (4 - ds.length) '0' ++ ds

/-- Embedding of `download_instagram_images.get_filename_from_url` (lines 51-82).  The
built-in `hash` is process-seeded in Python, so it enters the model as the
explicit parameter `h`: one run of the program corresponds to one fixed
`h`. -/
def get_filename_from_url (h : List Char → Int) (url : List Char)
    (index : Option Nat) : List Char :=
  let path := urlPath url
  let filename :=
    match findIdMatch path with
    | some g => g
    | none =>
      let b := pyBasename path
      if b.isEmpty || !(b.contains '.') then
        "image_".toList ++ Nat.toDigits 10 (h url % 1000000).toNat ++ ".jpg".toList
      else b
  match index with
  | some i => pad4 i ++ '_' :: filename
  | none => filename


/-! ## Acquisition Engine (`download_instagram_images.py`)

The HTTP boundary is modelled explicitly: a responder maps the attempt
number to the response observed on that attempt, and the retry machinery
configured in `create_session` (lines 27-31: `total=3`, `backoff_factor=1`,
`status_forcelist=[429, 500, 502, 503, 504]`) is embedded with the
documented urllib3 semantics — the initial request plus up to `total`
retries, a retry fired exactly when the status is in the forcelist, and a
backoff pause of `backoff_factor * 2 ^ (k - 1)` before the k-th retry for
k ≥ 2 (none before the first). -/

/-- An HTTP response at the boundary: status code and the declared
`Content-Type` header value. -/
structure HttpResponse where
  status : Nat
  contentType : List Char
deriving DecidableEq

/-- Value `total=3` from `create_session`. -/
def RETRY_TOTAL : Nat := 3

/-- Value `backoff_factor=1` from `create_session`. -/
def BACKOFF_FACTOR : Nat := 1

/-- Value `status_forcelist` from `create_session`. -/
def STATUS_FORCELIST : List Nat := [429, 500, 502, 503, 504]

/-- A status fires a retry exactly when it is in the forcelist. -/
def isRetryableStatus (s : Nat) : Bool := STATUS_FORCELIST.contains s

/-- Backoff pause before the k-th retry (k counted from 1). -/
def backoffTime (k : Nat) : Nat :=
  if k ≤ 1 then 0 else BACKOFF_FACTOR * 2 ^ (k - 1)

/-- One `session.get` with `retriesLeft` retries remaining: returns the
final response together with the number of requests issued. -/
def sessionGetAux (respond : Nat → HttpResponse) : Nat → Nat → HttpResponse × Nat
  | retriesLeft, attempt =>
    let r := respond attempt
    match retriesLeft with
    | 0 => (r, attempt + 1)
    | n + 1 =>
      if isRetryableStatus r.status then sessionGetAux respond n (attempt + 1)
      else (r, attempt + 1)

/-- Call `session.get(url, ...)` through the retry adapter of `create_session`. -/
def sessionGet (respond : Nat → HttpResponse) : HttpResponse × Nat :=
  sessionGetAux respond RETRY_TOTAL 0

/-- Observable outcome of `download_image`: the returned triple, plus the
filesystem after the call, the number of HTTP requests issued and the
number of rate-limiting sleeps performed. -/
structure DlOutcome where
  success : Bool
  filename : Option (List Char)
  error : Option (List Char)
  fs : List (List Char)
  requests : Nat
  sleeps : Nat
deriving DecidableEq

/-- Embedding of `download_instagram_images.download_image` (lines 85-129).  The output
directory is the list `fs` of filenames present; `net` gives each URL's
per-attempt responder.  `raise_for_status` raises exactly on 4xx/5xx
statuses, which the `except` branch converts into a failure outcome; a
2xx/3xx response with a `Content-Type` not containing `image` is the
distinct non-image failure; the rate-limiting sleep happens only on the
path that wrote a file. -/
def download_image (h : List Char → Int) (net : List Char → Nat → HttpResponse)
    (fs : List (List Char)) (url : List Char) (index : Option Nat) : DlOutcome :=
  let filename := get_filename_from_url h url index
  if filename ∈ fs then
    { success := true, filename := some filename, error := none,
      fs := fs, requests := 0, sleeps := 0 }
  else
    let fetched := sessionGet (net url)
    if 400 ≤ fetched.1.status then
      { success := false, filename := none, error := some "HTTPError".toList,
        fs := fs, requests := fetched.2, sleeps := 0 }
    else if !(hasTok "image".toList fetched.1.contentType) then
      { success := false, filename := none,
        error := some ("Not an image: ".toList ++ fetched.1.contentType),
        fs := fs, requests := fetched.2, sleeps := 0 }
    else
      { success := true, filename := some filename, error := none,
        fs := filename :: fs, requests := fetched.2, sleeps := 1 }

/-- Reading the URL file (lines 146-151): strip each line, keep the
non-empty ones that start with `http`. -/
def parseUrlsFile (content : List Char) : List (List Char) :=
  ((linesOf content).map pythonStrip).filter
    (fun u => !u.isEmpty && startsWithHttp u)

/-- The download loop of `download_images_from_file` (lines 165-178):
`enumerate(urls, 1)` feeds each URL with its 1-based index, folding the
per-item outcomes into counts.  Returns successful count, failed count,
final filesystem and total requests issued. -/
def runBatch (h : List Char → Int) (net : List Char → Nat → HttpResponse) :
    List (List Char) → Nat → List (List Char) → Nat × Nat × List (List Char) × Nat
  | [], _, fs => (0, 0, fs, 0)
  | url :: rest, i, fs =>
    let o := download_image h net fs url (some i)
    let r := runBatch h net rest (i + 1) o.fs
    (r.1 + (if o.success then 1 else 0),
     r.2.1 + (if o.success then 0 else 1),
     r.2.2.1,
     o.requests + r.2.2.2)

/-- The aggregate report of a run: successful, failed and total counts,
plus the final filesystem and the total number of requests issued. -/
structure RunSummary where
  successful : Nat
  failed : Nat
  total : Nat
  fs : List (List Char)
  requests : Nat
deriving DecidableEq

/-- Embedding of `download_instagram_images.download_images_from_file` (lines 132-184):
parse the URL file, return early with no summary when no URL is found
(lines 153-155), otherwise run the loop and report the summary. -/
def download_images_from_file (h : List Char → Int)
    (net : List Char → Nat → HttpResponse) (fs0 : List (List Char))
    (content : List Char) : Option RunSummary :=
  let urls := parseUrlsFile content
  if urls.isEmpty then none
  else
    let r := runBatch h net urls 1 fs0
    some { successful := r.1, failed := r.2.1, total := urls.length,
           fs := r.2.2.1, requests := r.2.2.2 }

/-! ## URL Store persistence (`extract_instagram_urls.save_urls_to_file`) -/

/-- Embedding of `save_urls_to_file` (lines 126-136): write each URL followed by a
newline, in order. -/
def save_urls_to_file (urls : List (List Char)) : List Char :=
  urls.foldr (fun u acc => u ++ '\n' :: acc) []

/-! ## Discovery Engine scroll loop
(`instagram_scraper_automated.scroll_and_load_all`) -/

/-- State observed while scrolling: heights are read through a query
counter into the simulated page `hs` (the n-th `scrollHeight` query
returns `hs n`); every `window.scrollTo` execution is counted, and the
scroll-to-bottom ones are counted separately. -/
structure ScrollCounts where
  scrolls : Nat
  cmds : Nat
  bottomCmds : Nat
deriving DecidableEq

/-- The `while scrolls < max_scrolls` loop of `scroll_and_load_all`
(lines 147-171), with `fuel = max_scrolls - scrolls`.  Each iteration
scrolls to the bottom and re-reads the height; an unchanged height
triggers the nudge (scroll up slightly, then back to the bottom) and one
re-check that either ends discovery or continues the loop. -/
def scrollLoop (hs : Nat → Nat) :
    Nat → Nat → Nat → Nat → Nat → Nat → Nat × Nat × Nat
  | 0, _, scrolls, _, cmds, bottom => (scrolls, cmds, bottom)
  | fuel + 1, lastHeight, scrolls, q, cmds, bottom =>
    let newHeight := hs q
    if newHeight = lastHeight then
      let newHeight2 := hs (q + 1)
      if newHeight2 = lastHeight then (scrolls, cmds + 3, bottom + 2)
      else scrollLoop hs fuel newHeight2 (scrolls + 1) (q + 2) (cmds + 3) (bottom + 2)
    else scrollLoop hs fuel newHeight (scrolls + 1) (q + 1) (cmds + 1) (bottom + 1)

/-- Embedding of `scroll_and_load_all` (lines 130-174): read the initial height
(query 0), then run the loop with `max_scrolls` fuel.  Returns the number
of counted scrolls, the total number of `window.scrollTo` executions and
how many of those were scroll-to-bottom commands. -/
def scroll_and_load_all (hs : Nat → Nat) (maxScrolls : Nat) : Nat × Nat × Nat :=
  scrollLoop hs maxScrolls (hs 0) 0 1 0 0

/-! ## Auxiliary definitions used by the statements below -/

/-- Shape of a URL accepted into the store by the extraction functions: no
newline, already stripped, and starting with `http`. -/
abbrev UrlLineShape (u : List Char) : Prop :=
  '\n' ∉ u ∧ pythonStrip u = u ∧ startsWithHttp u = true

/-- Every URL of the list, paired with its 1-based position starting at
`i`, already has its derived filename in `fs`. -/
def allNamesIn (h : List Char → Int) : List (List Char) → Nat → List (List Char) → Prop
  | [], _, _ => True
  | u :: rest, i, fs =>
    get_filename_from_url h u (some i) ∈ fs ∧ allNamesIn h rest (i + 1) fs

/-- The three-URL scenario file of the end-to-end acquisition test. -/
def scenarioFile : List Char :=
  ("https://instagram.com/a/one.jpg\n" ++
   "https://instagram.com/a/two.jpg\n" ++
   "https://instagram.com/a/three.jpg\n").toList

/-- Responses of the scenario host: the first URL is an image, the second
is an HTML page served with status 200, the third answers 503 on every
attempt. -/
def scenarioNet : List Char → Nat → HttpResponse := fun u _ =>
  if u = "https://instagram.com/a/one.jpg".toList then ⟨200, "image/jpeg".toList⟩
  else if u = "https://instagram.com/a/two.jpg".toList then ⟨200, "text/html".toList⟩
  else ⟨503, "text/html".toList⟩

/-! ## Helper lemmas -/

theorem hasTok_of_le {t1 t2 u : List Char} (h : t1 <:+: t2)
    (h2 : hasTok t2 u = true) : hasTok t1 u = true := by
  simp only [hasTok, decide_eq_true_eq] at h2 ⊢
  exact h.trans h2

theorem hasTok_false_of_le {t1 t2 u : List Char} (h : t1 <:+: t2)
    (h1 : hasTok t1 u = false) : hasTok t2 u = false := by
  cases ht : hasTok t2 u with
  | false => rfl
  | true => rw [hasTok_of_le h ht] at h1; exact absurd h1 (by simp)

theorem classifier_thumb_reject {url : List Char}
    (hthumb : thumbToks.any (fun t => hasTok t url) = true) :
    is_full_size_image url = false := by
  simp [is_full_size_image, hthumb]

theorem classifier_post_accept {url : List Char}
    (hpost : postToks.any (fun t => hasTok t url) = true)
    (hthumb : thumbToks.any (fun t => hasTok t url) = false)
    (hprof : hasTok profileTok url = false) :
    is_full_size_image url = true := by
  simp [is_full_size_image, hpost, hthumb, hprof]

/-! ## Claim C1 -/

/-- Claim C1 (amended): every URL containing one of the fixed thumbnail
size tokens is rejected by `is_full_size_image`; and every URL matching an
accepted post-image CDN path token is accepted, regardless of any
`[ps]<digits>x<digits>` size token, provided the URL carries none of the
thumbnail tokens and not the profile-picture path token — the two reject
rules run before the path-token accept rule. -/
theorem c1_token_rules (url : List Char) :
    (thumbToks.any (fun t => hasTok t url) = true → is_full_size_image url = false) ∧
    (postToks.any (fun t => hasTok t url) = true →
      thumbToks.any (fun t => hasTok t url) = false →
      hasTok profileTok url = false →
      is_full_size_image url = true) :=
  ⟨fun hthumb => classifier_thumb_reject hthumb,
   fun hpost hthumb hprof => classifier_post_accept hpost hthumb hprof⟩

/-- Witness for C1 at concrete URLs: a thumbnail URL rejected, a clean
post-image URL accepted. -/
theorem c1_token_rules_witness :
    is_full_size_image "https://instagram.com/v/x_s100x100.jpg".toList = false ∧
    is_full_size_image "https://instagram.com/v/t51.82787-15/abc.jpg".toList = true :=
  ⟨(c1_token_rules "https://instagram.com/v/x_s100x100.jpg".toList).1 (by decide),
   (c1_token_rules "https://instagram.com/v/t51.82787-15/abc.jpg".toList).2
     (by decide) (by decide) (by decide)⟩

/-- Counterexample to C1 as stated: two URLs matching the accepted
post-image path token `/t51.82787-15/` that the classifier nevertheless
rejects — one also carrying the thumbnail token `s100x100`, one also
carrying the profile-picture path token. -/
theorem c1_counterexample :
    (postToks.any (fun t => hasTok t "https://instagram.com/v/t51.82787-15/x_s100x100.jpg".toList) = true ∧
      is_full_size_image "https://instagram.com/v/t51.82787-15/x_s100x100.jpg".toList = false) ∧
    (postToks.any (fun t => hasTok t "https://instagram.com/t51.2885-19/t51.82787-15/a.jpg".toList) = true ∧
      is_full_size_image "https://instagram.com/t51.2885-19/t51.82787-15/a.jpg".toList = false) := by
  decide

/-! ## Claim C2 -/

/-- Claim C2 (amended): the inline admission predicate is the same
function on URL strings across all three discovery-channel call sites
(`src` attributes, `srcset` entries, network-log entries), but it is not
the Classifier: admission does not call `is_full_size_image`, and the
store can receive URLs that fail classification. -/
theorem c2_inline_predicate_shared (u : List Char) :
    dom_accept_src u = dom_accept_srcset u ∧ dom_accept_src u = network_log_accept u :=
  ⟨rfl, rfl⟩

/-- Counterexample to C2 as stated: a URL accepted by the inline predicate
of both channels that fails `is_full_size_image` (a bare `s100x100`
thumbnail path without the underscore variant the inline check looks
for). -/
theorem c2_counterexample :
    dom_accept_src "https://instagram.com/a/s100x100/b.jpg".toList = true ∧
    network_log_accept "https://instagram.com/a/s100x100/b.jpg".toList = true ∧
    is_full_size_image "https://instagram.com/a/s100x100/b.jpg".toList = false := by
  decide

/-! ## Claim C10 -/

/-- Claim C10 (amended): a CDN-family URL whose leftmost embedded
`[ps]<digits>x<digits>` size token is below 640 and which carries none of
the default-rule thumbnail tokens, and additionally not the
profile-picture path token, is accepted via the classifier's fall-through:
mid-size variants such as `p320x320` are classified full-size. -/
theorem c10_default_rule_accepts_midsize (url : List Char) (n : Nat)
    (hcdn : cdnFamily url = true)
    (hsize : findSizeToken url = some n) (hlt : n < 640)
    (hthumb : thumbToksDefault.any (fun t => hasTok t url) = false)
    (hprof : hasTok profileTok url = false) :
    is_full_size_image url = true := by
  have hd : ∀ t ∈ thumbToksDefault, hasTok t url = false := by
    intro t ht
    rcases List.any_eq_false.mp hthumb t ht with h
    simpa using h
  have h1 : hasTok "_s150x150".toList url = false :=
    hasTok_false_of_le (by decide) (hd "_s150".toList (by decide))
  have h2 : hasTok "_s100x100".toList url = false :=
    hasTok_false_of_le (by decide) (hd "_s100".toList (by decide))
  have h3 : hasTok "s150x150".toList url = false := hd "s150x150".toList (by decide)
  have h4 : hasTok "s100x100".toList url = false := hd "s100x100".toList (by decide)
  have hth : thumbToks.any (fun t => hasTok t url) = false := by
    simp only [thumbToks, List.any_cons, List.any_nil, Bool.or_false,
      Bool.or_eq_false_iff]
    exact ⟨h1, h2, h3, h4⟩
  cases hpost : postToks.any (fun t => hasTok t url) with
  | true => exact classifier_post_accept hpost hth hprof
  | false =>
    simp [is_full_size_image, hprof, hth, hpost, hsize, Nat.not_le.mpr hlt,
      hcdn, hthumb]

/-! ## Claim C3 -/

/-- Claim C3 (code bug): filename derivation is deterministic for a fixed
run, but the hash-based fallback for extension-less URLs is built from
Python's process-seeded `hash`, modelled by the parameter of
`get_filename_from_url`: two runs whose string hashes differ on the URL
produce different filenames, so the fallback name is not identical across
separate process invocations.  Evaluated here at the failing input
`https://instagram.com/abc` under two hash functions. -/
theorem c3_hash_fallback_not_run_stable :
    get_filename_from_url (fun _ => 0) "https://instagram.com/abc".toList none
        = "image_0.jpg".toList ∧
    get_filename_from_url (fun _ => 1) "https://instagram.com/abc".toList none
        = "image_1.jpg".toList ∧
    get_filename_from_url (fun _ => 0) "https://instagram.com/abc".toList none
        ≠ get_filename_from_url (fun _ => 1) "https://instagram.com/abc".toList none := by
  decide

/-! ## Claim C4 -/

/-- Claim C4: retry fires exactly for the configured status set
{429, 500, 502, 503, 504}; a 404 answer makes the download fail after a
single request (zero retries); a host answering 503 on every attempt is
asked `1 + RETRY_TOTAL` times before the per-item failure is reported; the
backoff pauses before the three possible retries are 0, 2 and 4 seconds
(exponential with factor 1). -/
theorem c4_retry_policy (h : List Char → Int)
    (net : List Char → Nat → HttpResponse) (url : List Char) (index : Option Nat) :
    (∀ s : Nat, isRetryableStatus s = true ↔
      (s = 429 ∨ s = 500 ∨ s = 502 ∨ s = 503 ∨ s = 504)) ∧
    ((net url 0).status = 404 →
      (download_image h net [] url index).requests = 1 ∧
      (download_image h net [] url index).success = false) ∧
    ((∀ k, (net url k).status = 503) →
      (download_image h net [] url index).requests = 1 + RETRY_TOTAL ∧
      (download_image h net [] url index).success = false) ∧
    (backoffTime 1 = 0 ∧ backoffTime 2 = 2 ∧ backoffTime 3 = 4) := by
  refine ⟨?_, ?_, ?_, by decide⟩
  · intro s
    simp [isRetryableStatus, STATUS_FORCELIST, List.contains]
  · intro h404
    have hr : isRetryableStatus 404 = false := by decide
    constructor <;>
      simp [download_image, sessionGet, sessionGetAux, RETRY_TOTAL, h404, hr]
  · intro h503
    have hr : isRetryableStatus 503 = true := by decide
    constructor <;>
      simp [download_image, sessionGet, sessionGetAux, RETRY_TOTAL,
        h503 0, h503 1, h503 2, h503 3, hr]

/-- Witness for C4: the policy applied to a constant-404 host and a
constant-503 host at a concrete URL. -/
theorem c4_retry_policy_witness :
    isRetryableStatus 429 = true ∧
    (download_image (fun _ => 0) (fun _ _ => ⟨404, []⟩) []
        "https://instagram.com/a/one.jpg".toList none).requests = 1 ∧
    (download_image (fun _ => 0) (fun _ _ => ⟨503, []⟩) []
        "https://instagram.com/a/one.jpg".toList none).requests = 1 + RETRY_TOTAL ∧
    (download_image (fun _ => 0) (fun _ _ => ⟨503, []⟩) []
        "https://instagram.com/a/one.jpg".toList none).success = false :=
  ⟨((c4_retry_policy (fun _ => 0) (fun _ _ => ⟨404, []⟩)
      "https://instagram.com/a/one.jpg".toList none).1 429).mpr (Or.inl rfl),
   ((c4_retry_policy (fun _ => 0) (fun _ _ => ⟨404, []⟩)
      "https://instagram.com/a/one.jpg".toList none).2.1 rfl).1,
   ((c4_retry_policy (fun _ => 0) (fun _ _ => ⟨503, []⟩)
      "https://instagram.com/a/one.jpg".toList none).2.2.1 (fun _ => rfl)).1,
   ((c4_retry_policy (fun _ => 0) (fun _ _ => ⟨503, []⟩)
      "https://instagram.com/a/one.jpg".toList none).2.2.1 (fun _ => rfl)).2⟩

/-! ## Claim C5 -/

theorem runBatch_counts (h : List Char → Int)
    (net : List Char → Nat → HttpResponse) :
    ∀ (urls : List (List Char)) (i : Nat) (fs : List (List Char)),
      (runBatch h net urls i fs).1 + (runBatch h net urls i fs).2.1 = urls.length := by
  intro urls
  induction urls with
  | nil => intro i fs; rfl
  | cons u rest ih =>
    intro i fs
    have hr := ih (i + 1) (download_image h net fs u (some i)).fs
    simp only [runBatch, List.length_cons]
    cases (download_image h net fs u (some i)).success <;> simp <;> omega

/-- Claim C5 (amended): whenever the Acquisition Engine reports a summary,
each URL was attempted independently and `successful + failed = total`; a
URL file with no URL line is answered with no summary at all (the engine
returns early).  In the three-URL scenario — one 200/`image/jpeg` answer,
one 200/`text/html` answer, one 503 on all attempts — the summary is
`successful = 1, failed = 2, total = 3`. -/
theorem c5_batch_summary :
    (∀ (h : List Char → Int) (net : List Char → Nat → HttpResponse)
       (fs0 : List (List Char)) (content : List Char) (s : RunSummary),
       download_images_from_file h net fs0 content = some s →
       s.successful + s.failed = s.total) ∧
    (download_images_from_file (fun _ => 0) scenarioNet [] scenarioFile).map
        (fun s => (s.successful, s.failed, s.total)) = some (1, 2, 3) := by
  constructor
  · intro h net fs0 content s hs
    simp only [download_images_from_file] at hs
    split at hs
    · exact absurd hs (by simp)
    · rw [Option.some_inj] at hs
      rw [← hs]
      exact runBatch_counts h net (parseUrlsFile content) 1 fs0
  · decide

/-- Witness for C5: the sum law applied to the concrete scenario run. -/
theorem c5_batch_summary_witness :
    (RunSummary.mk 1 2 3 ["0001_one.jpg".toList] 6).successful +
      (RunSummary.mk 1 2 3 ["0001_one.jpg".toList] 6).failed =
    (RunSummary.mk 1 2 3 ["0001_one.jpg".toList] 6).total :=
  c5_batch_summary.1 (fun _ => 0) scenarioNet [] scenarioFile
    (RunSummary.mk 1 2 3 ["0001_one.jpg".toList] 6) (by decide)

/-- Counterexample to C5 as stated: for the empty URL list no summary is
reported at all — the engine returns early with `None`. -/
theorem c5_counterexample :
    download_images_from_file (fun _ => 0) scenarioNet [] [] = none := by
  decide

/-! ## Claim C6 -/

theorem download_image_fs_mono (h : List Char → Int)
    (net : List Char → Nat → HttpResponse) (fs : List (List Char))
    (url : List Char) (idx : Option Nat) :
    fs ⊆ (download_image h net fs url idx).fs := by
  simp only [download_image]
  split
  · exact fun x hx => hx
  · split
    · exact fun x hx => hx
    · split
      · exact fun x hx => hx
      · exact fun x hx => List.mem_cons_of_mem _ hx

theorem download_image_name_mem (h : List Char → Int)
    (net : List Char → Nat → HttpResponse) (fs : List (List Char))
    (url : List Char) (idx : Option Nat)
    (hs : (download_image h net fs url idx).success = true) :
    get_filename_from_url h url idx ∈ (download_image h net fs url idx).fs := by
  simp only [download_image] at hs ⊢
  split at hs
  · next hmem => rw [if_pos hmem]; simpa using hmem
  · next hmem =>
    rw [if_neg hmem]
    split at hs
    · exact absurd hs (by simp)
    · next h400 =>
      rw [if_neg h400]
      split at hs
      · exact absurd hs (by simp)
      · next himg =>
        rw [if_neg himg]
        exact List.mem_cons_self _ _

theorem runBatch_fs_mono (h : List Char → Int)
    (net : List Char → Nat → HttpResponse) :
    ∀ (urls : List (List Char)) (i : Nat) (fs : List (List Char)),
      fs ⊆ (runBatch h net urls i fs).2.2.1 := by
  intro urls
  induction urls with
  | nil => intro i fs; exact fun x hx => hx
  | cons u rest ih =>
    intro i fs
    exact fun x hx =>
      ih (i + 1) (download_image h net fs u (some i)).fs
        (download_image_fs_mono h net fs u (some i) hx)

theorem allNamesIn_mono (h : List Char → Int) :
    ∀ (urls : List (List Char)) (i : Nat) (fs fs2 : List (List Char)),
      allNamesIn h urls i fs → fs ⊆ fs2 → allNamesIn h urls i fs2 := by
  intro urls
  induction urls with
  | nil => intro i fs fs2 _ _; trivial
  | cons u rest ih =>
    intro i fs fs2 ha hsub
    exact ⟨hsub ha.1, ih (i + 1) fs fs2 ha.2 hsub⟩

theorem runBatch_all_success_names (h : List Char → Int)
    (net : List Char → Nat → HttpResponse) :
    ∀ (urls : List (List Char)) (i : Nat) (fs : List (List Char)),
      (runBatch h net urls i fs).2.1 = 0 →
      allNamesIn h urls i ((runBatch h net urls i fs).2.2.1) := by
  intro urls
  induction urls with
  | nil => intro i fs _; trivial
  | cons u rest ih =>
    intro i fs hfail
    simp only [runBatch] at hfail ⊢
    have hsucc : (download_image h net fs u (some i)).success = true := by
      cases hc : (download_image h net fs u (some i)).success with
      | true => rfl
      | false => rw [hc] at hfail; simp at hfail
    rw [hsucc] at hfail
    simp at hfail
    refine ⟨?_, ih (i + 1) (download_image h net fs u (some i)).fs hfail⟩
    exact runBatch_fs_mono h net rest (i + 1) (download_image h net fs u (some i)).fs
      (download_image_name_mem h net fs u (some i) hsucc)

theorem runBatch_skips (h : List Char → Int)
    (net : List Char → Nat → HttpResponse) :
    ∀ (urls : List (List Char)) (i : Nat) (fs : List (List Char)),
      allNamesIn h urls i fs →
      runBatch h net urls i fs = (urls.length, 0, fs, 0) := by
  intro urls
  induction urls with
  | nil => intro i fs _; rfl
  | cons u rest ih =>
    intro i fs ha
    have hd : download_image h net fs u (some i)
        = { success := true, filename := some (get_filename_from_url h u (some i)),
            error := none, fs := fs, requests := 0, sleeps := 0 } := by
      unfold download_image
      rw [if_pos ha.1]
    simp only [runBatch, hd]
    rw [ih (i + 1) fs ha.2]
    simp

/-- Claim C6 (amended): after a first run in which every URL succeeded and
with the same filename-derivation hash function (the same process hash
seed), a second run over the same URL file starting from the first run's
output directory issues zero network requests, reports every item
successful via the existence check, and matches the first run's success
count.  (A first run with failures re-fetches the failed items on the
second run, and a changed hash seed re-fetches extension-less items.) -/
theorem c6_second_run_skips (h : List Char → Int)
    (net : List Char → Nat → HttpResponse) (content : List Char)
    (s1 : RunSummary)
    (h1 : download_images_from_file h net [] content = some s1)
    (hok : s1.failed = 0) :
    download_images_from_file h net s1.fs content
      = some { successful := s1.successful, failed := 0, total := s1.total,
               fs := s1.fs, requests := 0 } := by
  simp only [download_images_from_file] at h1 ⊢
  split at h1
  · exact absurd h1 (by simp)
  · next hne =>
    rw [Option.some_inj] at h1
    rw [if_neg hne]
    have hsum := runBatch_counts h net (parseUrlsFile content) 1 []
    have hfail0 : (runBatch h net (parseUrlsFile content) 1 []).2.1 = 0 := by
      have : s1.failed = (runBatch h net (parseUrlsFile content) 1 []).2.1 := by
        rw [← h1]
      omega
    have hnames := runBatch_all_success_names h net (parseUrlsFile content) 1 [] hfail0
    have hfs : s1.fs = (runBatch h net (parseUrlsFile content) 1 []).2.2.1 := by
      rw [← h1]
    rw [hfs]
    rw [runBatch_skips h net (parseUrlsFile content) 1 _ hnames]
    have hsucc : s1.successful = (parseUrlsFile content).length := by
      have h2 : s1.successful = (runBatch h net (parseUrlsFile content) 1 []).1 := by
        rw [← h1]
      omega
    have htot : s1.total = (parseUrlsFile content).length := by rw [← h1]
    rw [Option.some_inj]
    simp [hsucc, htot]

/-- Witness for C6: a one-URL file fully downloaded on the first run is
entirely skipped on the second. -/
theorem c6_second_run_skips_witness :
    download_images_from_file (fun _ => 0) (fun _ _ => ⟨200, "image/jpeg".toList⟩)
        (RunSummary.mk 1 0 1 ["0001_one.jpg".toList] 1).fs
        "https://instagram.com/a/one.jpg\n".toList
      = some (RunSummary.mk 1 0 1 ["0001_one.jpg".toList] 0) := by
  have hw := c6_second_run_skips (fun _ => 0) (fun _ _ => ⟨200, "image/jpeg".toList⟩)
      "https://instagram.com/a/one.jpg\n".toList
      (RunSummary.mk 1 0 1 ["0001_one.jpg".toList] 1) (by decide) (by decide)
  exact hw

/-- Counterexample to C6 as stated: a completed first run containing a
failing URL (a host answering 503) leaves the file absent, so the second
run re-fetches it — four requests, not zero. -/
theorem c6_counterexample :
    download_images_from_file (fun _ => 0) (fun _ _ => ⟨503, []⟩) []
        "https://instagram.com/a/one.jpg\n".toList
      = some (RunSummary.mk 0 1 1 [] 4) ∧
    download_images_from_file (fun _ => 0) (fun _ _ => ⟨503, []⟩)
        (RunSummary.mk 0 1 1 [] 4).fs
        "https://instagram.com/a/one.jpg\n".toList
      = some (RunSummary.mk 0 1 1 [] 4) ∧
    (RunSummary.mk 0 1 1 [] 4).requests ≠ 0 := by
  decide

/-! ## Claim C7 -/

/-- Claim C7 (amended): on a page whose height never grows (the simulated
`[1000, 1000]` sequence: the post-scroll and post-nudge height queries
both return the initial height), `scroll_and_load_all` terminates after
the single nudge-retry of its first iteration, returning a scroll count of
0, and issues exactly 3 `window.scrollTo` commands — the scroll-to-bottom,
the nudge's slight scroll up, and the nudge's scroll back to the bottom —
of which 2 are scroll-to-bottom commands. -/
theorem scrollLoop_stable (hs : Nat → Nat)
    (fuel lastHeight scrolls q cmds bottom : Nat)
    (hq1 : hs q = lastHeight) (hq2 : hs (q + 1) = lastHeight) :
    scrollLoop hs (fuel + 1) lastHeight scrolls q cmds bottom
      = (scrolls, cmds + 3, bottom + 2) := by
  simp only [scrollLoop, hq1, hq2, if_pos]

theorem c7_scroll_stable (hs : Nat → Nat)
    (h1 : hs 1 = hs 0) (h2 : hs 2 = hs 0) :
    scroll_and_load_all hs 50 = (0, 3, 2) :=
  scrollLoop_stable hs 49 (hs 0) 0 1 0 0 h1 h2

/-- Witness for C7 at the constant page of height 1000. -/
theorem c7_scroll_stable_witness :
    scroll_and_load_all (fun _ => 1000) 50 = (0, 3, 2) :=
  c7_scroll_stable (fun _ => 1000) rfl rfl

/-- Counterexample to C7 as stated: the stable page receives 3 scroll
commands in total, not at most 2. -/
theorem c7_counterexample :
    (scroll_and_load_all (fun _ => 1000) 50).2.1 = 3 ∧
    ¬((scroll_and_load_all (fun _ => 1000) 50).2.1 ≤ 2) := by
  decide

/-! ## Claim C8 -/

/-- Claim C8 (amended): `download_image` sleeps the inter-request delay
exactly once after a fetch that succeeded and wrote a file; a fetch that
completes with a classified failure (HTTP error status after retries, or a
non-image content type), and likewise the skip-if-exists path, returns
without sleeping. -/
theorem c8_sleep_only_after_write (h : List Char → Int)
    (net : List Char → Nat → HttpResponse) (fs : List (List Char))
    (url : List Char) (idx : Option Nat) :
    (download_image h net fs url idx).sleeps
      = if (download_image h net fs url idx).success = true
            ∧ get_filename_from_url h url idx ∉ fs then 1 else 0 := by
  simp only [download_image]
  split
  · next hmem => simp [hmem]
  · next hmem =>
    split
    · simp
    · split
      · simp
      · simp [hmem]

/-- Counterexample to C8 as stated: a fetch completing with the classified
non-image failure performs no sleep at all. -/
theorem c8_counterexample :
    (download_image (fun _ => 0) (fun _ _ => ⟨200, "text/html".toList⟩) []
        "https://instagram.com/a/one.jpg".toList none).error
      = some ("Not an image: text/html".toList) ∧
    (download_image (fun _ => 0) (fun _ _ => ⟨200, "text/html".toList⟩) []
        "https://instagram.com/a/one.jpg".toList none).sleeps = 0 := by
  decide

/-! ## Claim C9 -/

theorem linesOf_append (u s : List Char) (hn : '\n' ∉ u) :
    linesOf (u ++ '\n' :: s) = u :: linesOf s := by
  induction u with
  | nil => simp [linesOf]
  | cons c cs ih =>
    have hc : ¬(c = '\n') := by
      intro e
      exact hn (e ▸ List.mem_cons_self c cs)
    have hcs : '\n' ∉ cs := fun m => hn (List.mem_cons_of_mem c m)
    simp only [List.cons_append, linesOf, if_neg hc]
    have ih2 : linesOf (List.append cs ('\n' :: s)) = cs :: linesOf s := ih hcs
    rw [ih2]

/-- Claim C9: persist-then-load round-trip.  Writing the URL Store's list
one URL per line with a trailing newline and re-reading it through the
Acquisition Engine's loader returns exactly the same list — in particular
a sorted, duplicate-free store reloads as the identical sorted,
duplicate-free sequence.  The hypotheses state the shape of every URL the
extraction functions accept: stripped, newline-free, starting with
`http`. -/
theorem c9_persist_load_roundtrip (urls : List (List Char))
    (hshape : ∀ u ∈ urls, UrlLineShape u) :
    parseUrlsFile (save_urls_to_file urls) = urls := by
  induction urls with
  | nil => rfl
  | cons u rest ih =>
    obtain ⟨hn, hstrip, hhttp⟩ := hshape u (List.mem_cons_self u rest)
    have hrest : ∀ v ∈ rest, UrlLineShape v :=
      fun v hv => hshape v (List.mem_cons_of_mem u hv)
    have hne : u.isEmpty = false := by
      cases u with
      | nil => simp [startsWithHttp] at hhttp
      | cons a l => rfl
    have hsave : save_urls_to_file (u :: rest) = u ++ '\n' :: save_urls_to_file rest := rfl
    have ihr := ih hrest
    simp only [parseUrlsFile] at ihr
    simp only [parseUrlsFile, hsave, linesOf_append u _ hn, List.map_cons,
      List.filter_cons, hstrip, hne, hhttp, Bool.not_false, Bool.true_and,
      if_true, ihr]

/-- Witness for C9 on a concrete two-URL store. -/
theorem c9_persist_load_roundtrip_witness :
    parseUrlsFile (save_urls_to_file
        ["https://instagram.com/a.jpg".toList, "https://instagram.com/b.jpg".toList])
      = ["https://instagram.com/a.jpg".toList, "https://instagram.com/b.jpg".toList] :=
  c9_persist_load_roundtrip
    ["https://instagram.com/a.jpg".toList, "https://instagram.com/b.jpg".toList]
    (by decide)

/-- Witness for C10: the `p320x320` mid-size variant on a clean CDN path
is classified full-size. -/
theorem c10_default_rule_accepts_midsize_witness :
    is_full_size_image "https://instagram.com/a/p320x320/b.jpg".toList = true :=
  c10_default_rule_accepts_midsize "https://instagram.com/a/p320x320/b.jpg".toList
    320 (by decide) (by decide) (by decide) (by decide) (by decide)

/-- Counterexample to C10 as stated: a CDN-family URL with a `p320x320`
token and none of the four thumbnail tokens that is still rejected,
because it carries the profile-picture path token, which the claim did not
exclude. -/
theorem c10_counterexample :
    cdnFamily "https://instagram.com/t51.2885-19/p320x320/b.jpg".toList = true ∧
    findSizeToken "https://instagram.com/t51.2885-19/p320x320/b.jpg".toList = some 320 ∧
    320 < 640 ∧
    thumbToksDefault.any
      (fun t => hasTok t "https://instagram.com/t51.2885-19/p320x320/b.jpg".toList) = false ∧
    is_full_size_image "https://instagram.com/t51.2885-19/p320x320/b.jpg".toList = false := by
  decide
